import Mathlib

/-!
Verification of the rustpkg build/install orchestrator (src/librustpkg/lib.rs)
and the libuv process wait primitive (src/librustuv/process.rs), via a shallow
embedding in Lean.

Paths are modelled as lists of path segments; filesystem and subprocess
behaviour is supplied by an explicit environment record, so that every
definition is executable and every theorem quantifies over the environment.
-/

namespace Rustpkg

/-- A filesystem path, as a list of path segments. Path join is list append. -/
abbrev FsPath := List String

/-- Render a path the way `Path::as_str` does, joining segments with a slash. -/
def renderPath (p : FsPath) : String := String.intercalate "/" p

/-- Embeds `Path::dir_path`: the path with its last component removed. -/
def dirPath (p : FsPath) : FsPath := p.dropLast

/-- Embeds `Path::set_filename`: replace the last component. -/
def set_filename (p : FsPath) (f : String) : FsPath := p.dropLast ++ [f]

/-- Accumulator pass over the characters of a string, splitting at
whitespace runs and dropping empty tokens. -/
def wordsAux : List Char → List Char → List String
  | [], acc => if acc.isEmpty then [] else [String.mk acc.reverse]
  | c :: cs, acc =>
    if c.isWhitespace then
      if acc.isEmpty then wordsAux cs []
      else String.mk acc.reverse :: wordsAux cs []
    else wordsAux cs (c :: acc)

/-- Rust `str::words()`: whitespace-separated tokens, empty tokens skipped. -/
def words (s : String) : List String := wordsAux s.data []

/-- Embeds `std::io::process::ProcessExit` (used by both source files): normal exit
with a code, or termination by a signal. -/
inductive ProcessExit where
  | exitStatus (code : Int)
  | exitSignal (sig : Int)
deriving DecidableEq, Repr

/-- Embeds `ProcessExit::success()`: true exactly for `ExitStatus(0)`. -/
def ProcessExit.success : ProcessExit → Bool
  | .exitStatus 0 => true
  | _ => false

/-- One subprocess spawn performed by the orchestrator: program plus argument
vector, recorded in order of spawning. -/
structure Invocation where
  prog : String
  args : List String
deriving DecidableEq, Repr

/-- Embeds `PkgId`: the package identifier (logical path and version). Modelled from
the spec (module `package_id` is not under src/): immutable record of a
path-like logical name and a version tag. -/
structure PkgId where
  path : FsPath
  version : String
deriving DecidableEq, Repr

/-- One build unit: an (ordinal, relative file path) pair, as pushed by
`PkgSrc::push_crate`. -/
structure Crate where
  ordinal : Nat
  file : FsPath
deriving DecidableEq, Repr

/-- Embeds `PkgSrc`: Modelled from the spec (module `package_source` is not under
src/): source and destination workspaces, the package's start directory, its
id, and the four role-ordered unit lists. -/
structure PkgSrc where
  source_workspace : FsPath
  destination_workspace : FsPath
  start_dir : FsPath
  id : PkgId
  libs : List Crate
  mains : List Crate
  tests : List Crate
  benchs : List Crate
deriving DecidableEq, Repr

/-- Embeds `WhatToBuild.build_type`: whether custom build scripts may be used
(`MaybeCustom`) or are ignored (`Inferred`). Modelled from the spec (module
`target` is not under src/). -/
inductive BuildType where
  | MaybeCustom
  | Inferred
deriving DecidableEq, Repr

/-- Embeds `WhatToBuild.sources`: which units to build — everything, tests only, or
exactly one explicitly named file. Modelled from the spec (module `target` is
not under src/). -/
inductive WhatSources where
  | Everything
  | Tests
  | JustOne (p : FsPath)
deriving DecidableEq, Repr

/-- Embeds `WhatToBuild`: requested build strategy. -/
structure WhatToBuild where
  build_type : BuildType
  sources : WhatSources
deriving DecidableEq, Repr

/-- Role classification by filename convention. Modelled from the spec
(module `target` is not under src/): a library unit is named `lib.rs`. -/
def is_lib (p : FsPath) : Bool := p.getLast? == some "lib.rs"

/-- Modelled from the spec: an executable unit is named `main.rs`. -/
def is_main (p : FsPath) : Bool := p.getLast? == some "main.rs"

/-- Modelled from the spec: a test unit is named `test.rs`. -/
def is_test (p : FsPath) : Bool := p.getLast? == some "test.rs"

/-- Modelled from the spec: a benchmark unit is named `bench.rs`. -/
def is_bench (p : FsPath) : Bool := p.getLast? == some "bench.rs"

/-- The environment: the configured workspace search path, the filesystem
facts the orchestrator consults, and the behaviour of external collaborators
(version control, subprocess execution, fingerprinting, artifact-path
computation). Functions that live in repository modules not under src/
(`path_util`, `workcache_support`) are modelled from the spec as environment
fields. -/
structure Env where
  /-- The ordered workspace search path (RUST_PATH). -/
  rust_path : List FsPath
  /-- Paths that are version-control working copies (`is_git_dir`). -/
  git_dirs : List FsPath
  /-- Whether `safe_git_clone src out` succeeds (`CheckedOutSources`). -/
  clone_ok : FsPath → FsPath → Bool
  /-- Whether a `git_checkout_failed` condition handler is registered. -/
  handler_registered : Bool
  /-- The toolchain root passed to build scripts (`sysroot_to_use`). -/
  sysroot : FsPath
  /-- Platform executable suffix (`util::exe_suffix()`). -/
  exe_suffix : String
  /-- Modelled from the spec: `build_pkg_id_in_workspace`, the per-package
  build scratch directory inside a workspace. -/
  build_dir_of : PkgId → FsPath → FsPath
  /-- Embeds `run::process_status prog args`: spawn, wait, return exit status. -/
  processStatus : String → List String → ProcessExit
  /-- Embeds `run::process_output prog args`: spawn, wait, return status and the
  child's standard output. -/
  processOutput : String → List String → ProcessExit × String
  /-- Statically configured flags (`self.context.cfgs`). -/
  cfgs : List String
  /-- Paths that exist on the filesystem (`Path::exists`). -/
  existing : List FsPath
  /-- Modelled from the spec: directory walk of a start directory, yielding
  candidate unit files in traversal order (`discover_units`). -/
  listing : FsPath → List FsPath
  /-- Modification time of a path, as a digest string. -/
  mtime : FsPath → String
  /-- Content hash of a path, as a digest string. -/
  filehash : FsPath → String
  /-- Modelled from the spec: `built_executable_in_workspace`, the built
  executable for a package inside a build workspace, if present. -/
  built_executable : PkgId → FsPath → Option FsPath
  /-- Modelled from the spec: `built_library_in_workspace`. -/
  built_library : PkgId → FsPath → Option FsPath
  /-- Modelled from the spec: `target_executable_in_workspace`, the install
  destination for the executable. -/
  target_executable : PkgId → FsPath → FsPath
  /-- Modelled from the spec: `target_library_in_workspace`. -/
  target_library : PkgId → FsPath → FsPath

/-- Modelled from the spec: `default_workspace()` is the first entry of the
configured search path (callers assume the search path is nonempty). -/
def default_workspace (e : Env) : FsPath := e.rust_path.headD []

/-- Modelled from the spec: `in_rust_path p` holds when `p` is a member of
the configured search path. -/
def in_rust_path (e : Env) (p : FsPath) : Bool := decide (p ∈ e.rust_path)

/-- Embeds `is_git_dir`: the path is a version-control working copy. -/
def is_git_dir (e : Env) (p : FsPath) : Bool := decide (p ∈ e.git_dirs)

/-- Modelled from the spec: `PkgSrc::new` locates a package under
`source_workspace/src/id.path` with empty unit lists. -/
def PkgSrc.new (source_workspace destination_workspace : FsPath)
    (_use_rust_path_hack : Bool) (id : PkgId) : PkgSrc :=
  { source_workspace := source_workspace
    destination_workspace := destination_workspace
    start_dir := source_workspace ++ ["src"] ++ id.path
    id := id
    libs := [], mains := [], tests := [], benchs := [] }

/-- Modelled from the spec: `package_script_option` returns the fixed-name
package script (`pkg.rs`) directly under the start directory when it exists. -/
def package_script_option (e : Env) (ps : PkgSrc) : Option FsPath :=
  let p := ps.start_dir ++ ["pkg.rs"]
  if p ∈ e.existing then some p else none

/-- Embeds `PkgSrc::push_crate`: append a crate with the given ordinal. -/
def push_crate (cs : List Crate) (ordinal : Nat) (p : FsPath) : List Crate :=
  cs ++ [{ ordinal := ordinal, file := p }]

/-- Modelled from the spec: classify one discovered file into the role list
selected by the filename convention; unclassified files are skipped. -/
def classify_crate (ps : PkgSrc) (p : FsPath) : PkgSrc :=
  if is_lib p then { ps with libs := push_crate ps.libs ps.libs.length p }
  else if is_main p then { ps with mains := push_crate ps.mains ps.mains.length p }
  else if is_test p then { ps with tests := push_crate ps.tests ps.tests.length p }
  else if is_bench p then { ps with benchs := push_crate ps.benchs ps.benchs.length p }
  else ps

/-- Modelled from the spec: `find_crates_with_filter` walks the start
directory once and classifies every candidate passing the filter. -/
def find_crates_with_filter (e : Env) (ps : PkgSrc) (filter : FsPath → Bool) : PkgSrc :=
  (e.listing ps.start_dir).foldl
    (fun acc p => if filter p then classify_crate acc p else acc) ps

/-- Modelled from the spec: `find_crates` discovers all units. -/
def find_crates (e : Env) (ps : PkgSrc) : PkgSrc :=
  find_crates_with_filter e ps (fun _ => true)

/-- The compiled package-script executable path: `build_dir.join("pkg" +
exe_suffix)`, as computed by `PkgScript::build_custom`. -/
def pkg_script_exe (e : Env) (id : PkgId) (workspace : FsPath) : FsPath :=
  e.build_dir_of id workspace ++ ["pkg" ++ e.exe_suffix]

/-- Embeds `PkgScript::run_custom` (lib.rs lines 168-191): run the compiled script
with `install`; on failure return no flags and the failing status without a
second spawn; on success run it with `configs` and tokenize its standard
output on whitespace. Also returns the trace of spawned invocations. -/
def run_custom (e : Env) (exe : FsPath) (sysroot : FsPath) :
    List String × ProcessExit × List Invocation :=
  let inv1 : Invocation := { prog := renderPath exe
                             args := [renderPath sysroot, "install"] }
  let status := e.processStatus (renderPath exe) [renderPath sysroot, "install"]
  if !status.success then
    ([], status, [inv1])
  else
    let inv2 : Invocation := { prog := renderPath exe
                               args := [renderPath sysroot, "configs"] }
    let out := e.processOutput (renderPath exe) [renderPath sysroot, "configs"]
    (words out.2, out.1, [inv1, inv2])

/-- Observable outcome of one `build` call: a fatal `fail!`, fuel exhaustion
(never reached in practice, see the one-hop theorem), the warn-and-return
branch of `JustOne`, a custom-script-handled build (no orchestrator
compilation), or delegation of the discovered units to the compiler with the
given merged flags. -/
inductive BuildStatus where
  | fatal (msg : String)
  | outOfFuel
  | warnedNoBuild
  | customHandled (cfgs : List String)
  | compiled (cfgs : List String)
deriving DecidableEq, Repr

/-- Whether a build outcome is a fatal abort. -/
def BuildStatus.isFatal : BuildStatus → Bool
  | .fatal _ => true
  | _ => false

/-- Result of `build`: the status, the final state of the caller's `pkg_src`
argument (mutated in place by unit discovery; a git-fallback retry mutates a
fresh internal `PkgSrc`, so the caller's argument is returned unchanged in
that case), and the subprocess invocations spawned. -/
structure BuildRes where
  status : BuildStatus
  ps : PkgSrc
  invs : List Invocation
deriving DecidableEq, Repr

/-- The non-fallback, non-custom tail of `CtxMethods::build` (lib.rs lines
507-535): discover units per the requested sources, or push the explicitly
requested unit by role convention; an unclassified `JustOne` path warns and
returns; otherwise the discovered units are delegated to the compiler. -/
def buildNotCustom (e : Env) (ps : PkgSrc) (what : WhatToBuild)
    (cfgs : List String) : BuildRes :=
  match what.sources with
  | .Everything => { status := .compiled cfgs, ps := find_crates e ps, invs := [] }
  | .Tests =>
      { status := .compiled cfgs
        ps := find_crates_with_filter e ps (fun s => is_test s)
        invs := [] }
  | .JustOne p =>
      if ¬ ((ps.start_dir ++ p) ∈ e.existing) then
        { status := .fatal "assertion failed: pkg_src.start_dir.join(p).exists()"
          ps := ps, invs := [] }
      else if is_lib p then
        { status := .compiled cfgs
          ps := { ps with libs := push_crate ps.libs 0 p }, invs := [] }
      else if is_main p then
        { status := .compiled cfgs
          ps := { ps with mains := push_crate ps.mains 0 p }, invs := [] }
      else if is_test p then
        { status := .compiled cfgs
          ps := { ps with tests := push_crate ps.tests 0 p }, invs := [] }
      else if is_bench p then
        { status := .compiled cfgs
          ps := { ps with benchs := push_crate ps.benchs 0 p }, invs := [] }
      else
        { status := .warnedNoBuild, ps := ps, invs := [] }

/-- The body of `CtxMethods::build` after the git-fallback check (lib.rs
lines 461-535): if a package script exists and the strategy permits custom
logic, compile and run it via `run_custom`; a failing hook result is a fatal
abort, a successful one marks the build custom-handled with the script's
flags concatenated with the static flags. Otherwise fall through to unit
discovery with the static flags only. -/
def buildNoFallback (e : Env) (ps : PkgSrc) (what : WhatToBuild) : BuildRes :=
  match package_script_option e ps, what.build_type with
  | some _, .MaybeCustom =>
      let exe := pkg_script_exe e ps.id ps.source_workspace
      let r := run_custom e exe e.sysroot
      if !r.2.1.success then
        { status := .fatal "Error running custom build command", ps := ps
          invs := r.2.2 }
      else
        { status := .customHandled (r.1 ++ e.cfgs), ps := ps, invs := r.2.2 }
  | some _, .Inferred => buildNotCustom e ps what e.cfgs
  | none, _ => buildNotCustom e ps what e.cfgs

/-- The git-fallback precondition of `CtxMethods::build` (lib.rs line 441):
the source workspace is not in the search path and the package's source
directory is a version-control working copy. -/
def needsFallback (e : Env) (ps : PkgSrc) : Bool :=
  !(in_rust_path e ps.source_workspace) &&
    is_git_dir e (ps.source_workspace ++ ps.id.path)

/-- The fresh `PkgSrc` the fallback retry is invoked on (lib.rs lines
455-458): both workspaces are `default_workspace()`. -/
def retrySrc (e : Env) (id : PkgId) : PkgSrc :=
  PkgSrc.new (default_workspace e) (default_workspace e) false id

/-- Embeds `CtxMethods::build` (lib.rs lines 427-536). When the fallback
precondition holds, clone into `default_workspace()/src/id.path` and recurse
once on a fresh source tree rooted at the default workspace (an unhandled
clone failure raises the `git_checkout_failed` condition, fatal by default);
otherwise run the main body. Recursion is by fuel; the one-hop theorem shows
fuel 2 always suffices. -/
def build : Nat → Env → PkgSrc → WhatToBuild → BuildRes
  | 0, _, ps, _ => { status := .outOfFuel, ps := ps, invs := [] }
  | fuel + 1, e, ps, what =>
    if needsFallback e ps then
      let out_dir := default_workspace e ++ ["src"] ++ ps.id.path
      if e.clone_ok (ps.source_workspace ++ ps.id.path) out_dir ||
          e.handler_registered then
        let r := build fuel e (retrySrc e ps.id) what
        { status := r.status, ps := ps, invs := r.invs }
      else
        { status := .fatal "git checkout failed", ps := ps, invs := [] }
    else
      buildNoFallback e ps what

/-- Modelled from the spec: `workcache_support::digest_only_date`, a
fingerprint from the modification time only. -/
def digest_only_date (e : Env) (p : FsPath) : String := e.mtime p

/-- Modelled from the spec: `workcache_support::digest_file_with_date`, a
fingerprint from the content hash together with the modification time. -/
def digest_file_with_date (e : Env) (p : FsPath) : String :=
  e.filehash p ++ e.mtime p

/-- One declare/discover call issued against the memoization engine, in
order of issue: kind tag, identifier string, fingerprint. -/
inductive CacheCall where
  | declareInput (kind : String) (name : String) (fp : String)
  | discoverInput (kind : String) (name : String) (fp : String)
  | discoverOutput (kind : String) (name : String) (fp : String)
deriving DecidableEq, Repr

/-- One file copy performed by the install pipeline. -/
structure CopyOp where
  src : FsPath
  dst : FsPath
deriving DecidableEq, Repr

/-- The two `expect` panics reachable in the library-copy loop of
`install_no_build`: the destination-library `expect` (lib.rs line 673) and
the `weird target lib` filename `expect` (lib.rs line 675). -/
inductive InstallPanic where
  | targetLibNone
  | weirdTargetLib
deriving DecidableEq, Repr

/-- Observable effects of one `install_no_build` call: the returned
destination path strings, the cache calls issued in order, the copies
performed in order, and the directories created. -/
structure InstallRun where
  outputs : List String
  calls : List CacheCall
  copies : List CopyOp
  mkdirs : List FsPath
deriving DecidableEq, Repr

/-- Embeds `CtxMethods::install_no_build` (lib.rs lines 600-687). Computes the
built artifacts and their destinations (`target_lib` is only computed when a
built library exists), declares each existing artifact as a "binary" input
with a date-only fingerprint, then inside the memoized body re-discovers the
artifacts as "binary" inputs, discovers every caller-supplied build input as
a "file" input with a content-hash-plus-date fingerprint, and for each
artifact creates the destination directory, copies, discovers the
destination as a "binary" output with a date-only fingerprint, and returns
the destination path strings. `Except.error` models the `expect` panics. -/
def install_no_build (e : Env) (build_workspace : FsPath)
    (build_inputs : List FsPath) (target_workspace : FsPath) (id : PkgId) :
    Except InstallPanic InstallRun :=
  let maybe_executable := e.built_executable id build_workspace
  let maybe_library := e.built_library id build_workspace
  let target_exec := e.target_executable id target_workspace
  let target_lib :=
    Option.map (fun _ => e.target_library id target_workspace) maybe_library
  let declares :=
    (maybe_executable.toList.map (fun ee =>
      CacheCall.declareInput "binary" (renderPath ee) (digest_only_date e ee))) ++
    (maybe_library.toList.map (fun ll =>
      CacheCall.declareInput "binary" (renderPath ll) (digest_only_date e ll)))
  let discovers :=
    (maybe_executable.toList.map (fun x =>
      CacheCall.discoverInput "binary" (renderPath x) (digest_only_date e x))) ++
    (maybe_library.toList.map (fun x =>
      CacheCall.discoverInput "binary" (renderPath x) (digest_only_date e x))) ++
    (build_inputs.map (fun td =>
      CacheCall.discoverInput "file" (renderPath td) (digest_file_with_date e td)))
  let execCopies := maybe_executable.toList.map (fun ex => CopyOp.mk ex target_exec)
  let execMkdirs := maybe_executable.toList.map (fun _ => dirPath target_exec)
  let execOutCalls := maybe_executable.toList.map (fun _ =>
    CacheCall.discoverOutput "binary" (renderPath target_exec)
      (digest_only_date e target_exec))
  let execOuts := maybe_executable.toList.map (fun _ => renderPath target_exec)
  match maybe_library with
  | none =>
      .ok { outputs := execOuts
            calls := declares ++ discovers ++ execOutCalls
            copies := execCopies
            mkdirs := execMkdirs }
  | some lib =>
      match target_lib with
      | none => .error .targetLibNone
      | some tl =>
          match lib.getLast? with
          | none => .error .weirdTargetLib
          | some fname =>
              let tlib := set_filename tl fname
              .ok { outputs := execOuts ++ [renderPath tlib]
                    calls := declares ++ discovers ++ execOutCalls ++
                      [CacheCall.discoverOutput "binary" (renderPath tlib)
                        (digest_only_date e tlib)]
                    copies := execCopies ++ [CopyOp.mk lib tlib]
                    mkdirs := execMkdirs ++ [dirPath tlib] }

/-- Modelled from the spec: `PkgSrc::build_workspace`, the workspace the
package's artifacts were built in. -/
def PkgSrc.build_workspace (ps : PkgSrc) : FsPath := ps.source_workspace

/-- The declared (kind, path) input pairs collected by `install` (lib.rs
lines 575-586): every unit of the four role lists, in list order, as a
"file" input at `start_dir.join(unit.file)`. -/
def declared_inputs (ps : PkgSrc) : List (String × String) :=
  (ps.libs ++ ps.mains ++ ps.tests ++ ps.benchs).map
    (fun c => ("file", renderPath (ps.start_dir ++ c.file)))

/-- The transitive build-input paths collected by `install` alongside the
declared inputs (same traversal, same order). -/
def build_input_paths (ps : PkgSrc) : List FsPath :=
  (ps.libs ++ ps.mains ++ ps.tests ++ ps.benchs).map
    (fun c => ps.start_dir ++ c.file)

/-- Observable outcome of one `install` call. -/
inductive InstallOutcome where
  | fatal (msg : String)
  | outOfFuel
  | panicked (p : InstallPanic)
  | done (installed : List String) (inputs : List (String × String))
deriving DecidableEq, Repr

/-- Embeds `CtxMethods::install` (lib.rs lines 559-597): run `build` to completion
first (its in-place mutation of `pkg_src` is the returned `ps`); on a fatal
build the whole command aborts; otherwise record every unit's source file as
a declared "file" input, call `install_no_build`, and return the installed
paths with the declared inputs. -/
def install (fuel : Nat) (e : Env) (ps : PkgSrc) (what : WhatToBuild) :
    InstallOutcome :=
  let b := build fuel e ps what
  match b.status with
  | .fatal m => .fatal m
  | .outOfFuel => .outOfFuel
  | _ =>
      match install_no_build e b.ps.build_workspace (build_input_paths b.ps)
          b.ps.destination_workspace b.ps.id with
      | .error p => .panicked p
      | .ok r => .done r.outputs (declared_inputs b.ps)

end Rustpkg

namespace Rustuv

open Rustpkg (ProcessExit)

/-- The per-process state of `librustuv::process::Process` relevant to exit
handling: the optionally blocked waiting task and the status collected by
the exit callback. -/
structure UvProcess where
  to_wake : Option Nat
  exit_status : Option ProcessExit
deriving DecidableEq, Repr

/-- The status computed by the `on_exit` callback (process.rs lines
107-110): a zero terminating signal yields `ExitStatus(exit_status)`, a
nonzero one yields `ExitSignal(term_signal)`. -/
def exit_of (exit_status : Int) (term_signal : Int) : ProcessExit :=
  if term_signal = 0 then .exitStatus exit_status else .exitSignal term_signal

/-- Embeds `on_exit` (process.rs lines 101-119): record the exit status and wake
the blocked waiter, if any. -/
def on_exit (p : UvProcess) (exit_status : Int) (term_signal : Int) : UvProcess :=
  { p with exit_status := some (exit_of exit_status term_signal)
           to_wake := none }

/-- Embeds `RtioProcess::wait` (process.rs lines 211-227): if the exit callback has
already recorded a status, return it immediately; otherwise block until the
callback runs (modelled by the pending exit event, whose delivery is
`on_exit`) and return the recorded status. The boolean reports whether the
caller blocked. The unreachable fallback mirrors the
`assert!(self.exit_status.is_some())` after waking. -/
def wait (p : UvProcess) (pending : Int × Int) : ProcessExit × Bool :=
  match p.exit_status with
  | some s => (s, false)
  | none =>
      let p' := on_exit p pending.1 pending.2
      (p'.exit_status.getD (.exitStatus 0), true)

end Rustuv

namespace Rustpkg

/-- A baseline concrete environment for concrete evaluations: one workspace
`rp` on the search path, no git working copies, trivial collaborators. -/
def envBase : Env :=
  { rust_path := [["rp"]]
    git_dirs := []
    clone_ok := fun _ _ => true
    handler_registered := false
    sysroot := ["sys"]
    exe_suffix := ""
    build_dir_of := fun id ws => ws ++ ["build"] ++ id.path
    processStatus := fun _ _ => .exitStatus 0
    processOutput := fun _ _ => (.exitStatus 0, "")
    cfgs := []
    existing := []
    listing := fun _ => []
    mtime := fun _ => "t"
    filehash := fun _ => "h"
    built_executable := fun _ _ => none
    built_library := fun _ _ => none
    target_executable := fun _ tw => tw ++ ["bin", "foo"]
    target_library := fun _ tw => tw ++ ["lib", "libfoo.so"] }

/-- A concrete package identifier used by the concrete evaluations. -/
def idW : PkgId := { path := ["foo"], version := "1" }

/-- A concrete package source living inside the search-path workspace `rp`
(so the git fallback never fires on it). -/
def psW : PkgSrc := PkgSrc.new ["rp"] ["rp"] false idW

/-- A concrete package source living outside the search path, in workspace
`w`. -/
def psOut : PkgSrc := PkgSrc.new ["w"] ["w"] false idW

/-- Environment for the git-fallback instance: the out-of-path source is a
git working copy and the clone succeeds. -/
def envFallback : Env := { envBase with git_dirs := [["w", "foo"]] }

/-- Environment in which `foo` has a package script whose `install` phase
succeeds and whose `configs` phase exits 1 while printing `flag_a`. -/
def envConfigsFail : Env :=
  { envBase with
    existing := [psW.start_dir ++ ["pkg.rs"]]
    processStatus := fun _ _ => .exitStatus 0
    processOutput := fun _ _ => (.exitStatus 1, "flag_a") }

/-- Environment in which `foo` has no package script but the explicitly
requested file `tests/unit.rs` exists under the start directory. -/
def envUnclassified : Env :=
  { envBase with existing := [psW.start_dir ++ ["tests", "unit.rs"]] }

/-- The `ExactlyOne tests/unit.rs` strategy of end-to-end scenario 4. -/
def whatUnclassified : WhatToBuild :=
  { build_type := .MaybeCustom, sources := .JustOne ["tests", "unit.rs"] }

/-- Environment in which `foo` has a package script whose `install` phase
exits 1. -/
def envInstallFail : Env :=
  { envBase with
    existing := [psW.start_dir ++ ["pkg.rs"]]
    processStatus := fun _ _ => .exitStatus 1 }

/-- Environment in which `foo` has a package script whose two phases both
succeed, the `configs` phase printing `feature_x feature_y`. -/
def envCustomOk : Env :=
  { envBase with
    existing := [psW.start_dir ++ ["pkg.rs"]]
    processOutput := fun _ _ => (.exitStatus 0, "feature_x feature_y") }

/-- Environment in which the `configs` output repeats the statically
configured flag `feature_x`. -/
def envDupCfgs : Env :=
  { envBase with
    existing := [psW.start_dir ++ ["pkg.rs"]]
    cfgs := ["feature_x"]
    processOutput := fun _ _ => (.exitStatus 0, "feature_x") }

/-- Environment with both built artifacts present in workspace `rp` and one
discovered executable unit, for the install-pipeline instances. -/
def envArtifacts : Env :=
  { envBase with
    existing := [psW.start_dir ++ ["main.rs"]]
    listing := fun _ => [["main.rs"]]
    built_executable := fun _ _ => some ["rp", "build", "foo", "foo"]
    built_library := fun _ _ => some ["rp", "build", "foo", "libfoo-x.so"] }

/-- The source tree after unit discovery in `envArtifacts`: one executable
unit `main.rs`. -/
def psMains : PkgSrc := { psW with mains := [{ ordinal := 0, file := ["main.rs"] }] }

/-- The concrete effects of `install_no_build` in `envArtifacts`. -/
def runArtifacts : InstallRun :=
  { outputs := ["rp/bin/foo", "rp/lib/libfoo-x.so"]
    calls := [ .declareInput "binary" "rp/build/foo/foo" "t",
               .declareInput "binary" "rp/build/foo/libfoo-x.so" "t",
               .discoverInput "binary" "rp/build/foo/foo" "t",
               .discoverInput "binary" "rp/build/foo/libfoo-x.so" "t",
               .discoverInput "file" "rp/src/foo/main.rs" "ht",
               .discoverOutput "binary" "rp/bin/foo" "t",
               .discoverOutput "binary" "rp/lib/libfoo-x.so" "t" ]
    copies := [ { src := ["rp", "build", "foo", "foo"], dst := ["rp", "bin", "foo"] },
                { src := ["rp", "build", "foo", "libfoo-x.so"]
                  dst := ["rp", "lib", "libfoo-x.so"] } ]
    mkdirs := [["rp", "bin"], ["rp", "lib"]] }

/-- Claim C1: when the git-fallback precondition holds (source workspace not
in the search path, source directory a git working copy) and the clone
succeeds, `build` re-invokes itself exactly once, on a source tree rooted at
`default_workspace()`; the default workspace is a member of the search path,
the fallback precondition is false on the retry, and the whole build equals
the retry's non-fallback body regardless of any remaining fuel — the
recursion terminates after one hop. -/
theorem build_git_fallback_one_hop (e : Env) (ps : PkgSrc) (what : WhatToBuild)
    (fuel : Nat) (hne : e.rust_path ≠ [])
    (hfb : needsFallback e ps = true)
    (hclone : e.clone_ok (ps.source_workspace ++ ps.id.path)
        (default_workspace e ++ ["src"] ++ ps.id.path) = true) :
    in_rust_path e (default_workspace e) = true ∧
    (retrySrc e ps.id).source_workspace = default_workspace e ∧
    needsFallback e (retrySrc e ps.id) = false ∧
    build (fuel + 2) e ps what =
      { status := (buildNoFallback e (retrySrc e ps.id) what).status
        ps := ps
        invs := (buildNoFallback e (retrySrc e ps.id) what).invs } := by
  have hmem : in_rust_path e (default_workspace e) = true := by
    cases h : e.rust_path with
    | nil => exact absurd h hne
    | cons a as => simp [in_rust_path, default_workspace, h]
  have hretry : needsFallback e (retrySrc e ps.id) = false := by
    have hsw : (retrySrc e ps.id).source_workspace = default_workspace e := rfl
    simp [needsFallback, hsw, hmem]
  refine ⟨hmem, rfl, hretry, ?_⟩
  have hclone' : e.clone_ok (ps.source_workspace ++ ps.id.path)
      (default_workspace e ++ "src" :: ps.id.path) = true := by
    simpa using hclone
  simp [build, hfb, hclone', hretry]

/-- Concrete instance of the one-hop git-fallback theorem: package `foo` in
the out-of-path git workspace `w`, searched path `[rp]`. -/
theorem build_git_fallback_one_hop_witness :
    in_rust_path envFallback (default_workspace envFallback) = true ∧
    (retrySrc envFallback psOut.id).source_workspace = default_workspace envFallback ∧
    needsFallback envFallback (retrySrc envFallback psOut.id) = false ∧
    build 2 envFallback psOut { build_type := .MaybeCustom, sources := .Everything } =
      { status := (buildNoFallback envFallback (retrySrc envFallback psOut.id)
          { build_type := .MaybeCustom, sources := .Everything }).status
        ps := psOut
        invs := (buildNoFallback envFallback (retrySrc envFallback psOut.id)
          { build_type := .MaybeCustom, sources := .Everything }).invs } :=
  build_git_fallback_one_hop envFallback psOut
    { build_type := .MaybeCustom, sources := .Everything } 0
    (by decide) (by decide) rfl

/-- Claim C2, counterexample: in `envConfigsFail` the script's `install`
invocation succeeds and its `configs` invocation exits 1, yet the build
aborts fatally — contradicting the claim that the failure is only reported
and the build proceeds. Both subprocesses were spawned, so the failure is
the second invocation's. -/
theorem configs_failure_aborts_counterexample :
    (build 1 envConfigsFail psW
        { build_type := .MaybeCustom, sources := .Everything }).status
      = .fatal "Error running custom build command" ∧
    BuildStatus.isFatal (build 1 envConfigsFail psW
        { build_type := .MaybeCustom, sources := .Everything }).status = true ∧
    (envConfigsFail.processStatus
        (renderPath (pkg_script_exe envConfigsFail psW.id psW.source_workspace))
        [renderPath envConfigsFail.sysroot, "install"]).success = true ∧
    (envConfigsFail.processOutput
        (renderPath (pkg_script_exe envConfigsFail psW.id psW.source_workspace))
        [renderPath envConfigsFail.sysroot, "configs"]).1.success = false := by
  decide

/-- Claim C2 (amended): when the `install` invocation succeeds but the
`configs` invocation exits unsuccessfully, the build fails fatally — the
`configs` status is returned as the hook result and `build` aborts on it;
the tokenized output is discarded by the abort. -/
theorem configs_failure_fatal (e : Env) (ps : PkgSrc) (what : WhatToBuild)
    (sp : FsPath) (hscript : package_script_option e ps = some sp)
    (hcustom : what.build_type = .MaybeCustom)
    (hinstall : (e.processStatus
        (renderPath (pkg_script_exe e ps.id ps.source_workspace))
        [renderPath e.sysroot, "install"]).success = true)
    (hconfigs : (e.processOutput
        (renderPath (pkg_script_exe e ps.id ps.source_workspace))
        [renderPath e.sysroot, "configs"]).1.success = false) :
    buildNoFallback e ps what =
      { status := .fatal "Error running custom build command"
        ps := ps
        invs := [{ prog := renderPath (pkg_script_exe e ps.id ps.source_workspace)
                   args := [renderPath e.sysroot, "install"] },
                 { prog := renderPath (pkg_script_exe e ps.id ps.source_workspace)
                   args := [renderPath e.sysroot, "configs"] }] } := by
  obtain ⟨bt, srcs⟩ := what
  cases hcustom
  simp [buildNoFallback, hscript, run_custom, hinstall, hconfigs]

/-- Concrete instance of the amended C2 theorem at `envConfigsFail`. -/
theorem configs_failure_fatal_witness :
    buildNoFallback envConfigsFail psW
        { build_type := .MaybeCustom, sources := .Everything } =
      { status := .fatal "Error running custom build command"
        ps := psW
        invs := [{ prog := renderPath
                     (pkg_script_exe envConfigsFail psW.id psW.source_workspace)
                   args := [renderPath envConfigsFail.sysroot, "install"] },
                 { prog := renderPath
                     (pkg_script_exe envConfigsFail psW.id psW.source_workspace)
                   args := [renderPath envConfigsFail.sysroot, "configs"] }] } :=
  configs_failure_fatal envConfigsFail psW
    { build_type := .MaybeCustom, sources := .Everything }
    (psW.start_dir ++ ["pkg.rs"]) (by decide) rfl (by decide) (by decide)

/-- Claim C3, counterexample: requesting `JustOne tests/unit.rs` where the
file exists but matches no role-naming convention makes `build` warn and
return — the outcome is `warnedNoBuild`, not a fatal error, and no unit is
delegated to the compiler; the claimed fatal `UnresolvedTarget` failure does
not occur (no such error exists in the code). -/
theorem just_one_unclassified_counterexample :
    (build 1 envUnclassified psW whatUnclassified).status = .warnedNoBuild ∧
    BuildStatus.isFatal
      (build 1 envUnclassified psW whatUnclassified).status = false ∧
    (build 1 envUnclassified psW whatUnclassified).ps = psW ∧
    (build 1 envUnclassified psW whatUnclassified).invs = [] := by
  decide

/-- Claim C3 (amended): when the strategy is `JustOne p`, `p` exists under
the start directory, and `p`'s filename matches none of the four role-naming
conventions, the build emits a warning and returns without attempting any
compilation and without mutating the unit lists; it does not fail fatally. -/
theorem just_one_unclassified_warns (e : Env) (ps : PkgSrc)
    (what : WhatToBuild) (p : FsPath)
    (hscript : package_script_option e ps = none)
    (hsources : what.sources = .JustOne p)
    (hexists : (ps.start_dir ++ p) ∈ e.existing)
    (hlib : is_lib p = false) (hmain : is_main p = false)
    (htest : is_test p = false) (hbench : is_bench p = false) :
    buildNoFallback e ps what =
      { status := .warnedNoBuild, ps := ps, invs := [] } := by
  obtain ⟨bt, srcs⟩ := what
  cases hsources
  cases bt <;>
    simp [buildNoFallback, buildNotCustom, hscript, hexists, hlib, hmain,
      htest, hbench]

/-- Concrete instance of the amended C3 theorem at `envUnclassified`. -/
theorem just_one_unclassified_warns_witness :
    buildNoFallback envUnclassified psW whatUnclassified =
      { status := .warnedNoBuild, ps := psW, invs := [] } :=
  just_one_unclassified_warns envUnclassified psW whatUnclassified
    ["tests", "unit.rs"] (by decide) rfl (by decide)
    (by decide) (by decide) (by decide) (by decide)

/-- Claim C4: when the script's `install` invocation exits unsuccessfully,
`run_custom` returns an empty config-flag list with the failing status after
spawning only that one child — the `configs` invocation is never started —
and the whole build fails fatally. -/
theorem install_phase_failure_fatal (e : Env) (ps : PkgSrc)
    (what : WhatToBuild) (sp : FsPath) (st : ProcessExit)
    (hscript : package_script_option e ps = some sp)
    (hcustom : what.build_type = .MaybeCustom)
    (hst : e.processStatus
        (renderPath (pkg_script_exe e ps.id ps.source_workspace))
        [renderPath e.sysroot, "install"] = st)
    (hfail : st.success = false) :
    run_custom e (pkg_script_exe e ps.id ps.source_workspace) e.sysroot =
      ([], st, [{ prog := renderPath (pkg_script_exe e ps.id ps.source_workspace)
                  args := [renderPath e.sysroot, "install"] }]) ∧
    buildNoFallback e ps what =
      { status := .fatal "Error running custom build command"
        ps := ps
        invs := [{ prog := renderPath (pkg_script_exe e ps.id ps.source_workspace)
                   args := [renderPath e.sysroot, "install"] }] } ∧
    (∀ inv ∈ (buildNoFallback e ps what).invs,
      inv.args.getLast? ≠ some "configs") := by
  obtain ⟨bt, srcs⟩ := what
  cases hcustom
  have hrc : run_custom e (pkg_script_exe e ps.id ps.source_workspace) e.sysroot =
      ([], st, [{ prog := renderPath (pkg_script_exe e ps.id ps.source_workspace)
                  args := [renderPath e.sysroot, "install"] }]) := by
    simp [run_custom, hst, hfail]
  have hbf : buildNoFallback e ps
      { build_type := .MaybeCustom, sources := srcs } =
      { status := .fatal "Error running custom build command"
        ps := ps
        invs := [{ prog := renderPath (pkg_script_exe e ps.id ps.source_workspace)
                   args := [renderPath e.sysroot, "install"] }] } := by
    simp [buildNoFallback, hscript, hrc, hfail]
  refine ⟨hrc, hbf, ?_⟩
  rw [hbf]
  intro inv hinv
  simp at hinv
  subst hinv
  simp

/-- Concrete instance of the C4 theorem at `envInstallFail`. -/
theorem install_phase_failure_fatal_witness :
    run_custom envInstallFail
        (pkg_script_exe envInstallFail psW.id psW.source_workspace)
        envInstallFail.sysroot =
      ([], .exitStatus 1,
        [{ prog := renderPath
             (pkg_script_exe envInstallFail psW.id psW.source_workspace)
           args := [renderPath envInstallFail.sysroot, "install"] }]) ∧
    buildNoFallback envInstallFail psW
        { build_type := .MaybeCustom, sources := .Everything } =
      { status := .fatal "Error running custom build command"
        ps := psW
        invs := [{ prog := renderPath
                     (pkg_script_exe envInstallFail psW.id psW.source_workspace)
                   args := [renderPath envInstallFail.sysroot, "install"] }] } ∧
    (∀ inv ∈ (buildNoFallback envInstallFail psW
        { build_type := .MaybeCustom, sources := .Everything }).invs,
      inv.args.getLast? ≠ some "configs") :=
  install_phase_failure_fatal envInstallFail psW
    { build_type := .MaybeCustom, sources := .Everything }
    (psW.start_dir ++ ["pkg.rs"]) (.exitStatus 1)
    (by decide) rfl rfl (by decide)

/-- Claim C5: when a package script exists, the strategy permits custom
scripts, and both script invocations succeed, the build is custom-handled —
the orchestrator performs no crate discovery or unit compilation of its own
(the source's unit lists are returned untouched and the outcome is
`customHandled`, not `compiled`) — and the merged config flags contain every
whitespace-separated token the `configs` invocation printed to standard
output. -/
theorem custom_script_success_no_unit_compilation (e : Env) (ps : PkgSrc)
    (what : WhatToBuild) (sp : FsPath)
    (hscript : package_script_option e ps = some sp)
    (hcustom : what.build_type = .MaybeCustom)
    (hinstall : (e.processStatus
        (renderPath (pkg_script_exe e ps.id ps.source_workspace))
        [renderPath e.sysroot, "install"]).success = true)
    (hconfigs : (e.processOutput
        (renderPath (pkg_script_exe e ps.id ps.source_workspace))
        [renderPath e.sysroot, "configs"]).1.success = true) :
    buildNoFallback e ps what =
      { status := .customHandled
          (words (e.processOutput
            (renderPath (pkg_script_exe e ps.id ps.source_workspace))
            [renderPath e.sysroot, "configs"]).2 ++ e.cfgs)
        ps := ps
        invs := [{ prog := renderPath (pkg_script_exe e ps.id ps.source_workspace)
                   args := [renderPath e.sysroot, "install"] },
                 { prog := renderPath (pkg_script_exe e ps.id ps.source_workspace)
                   args := [renderPath e.sysroot, "configs"] }] } ∧
    (∀ t ∈ words (e.processOutput
        (renderPath (pkg_script_exe e ps.id ps.source_workspace))
        [renderPath e.sysroot, "configs"]).2,
      t ∈ words (e.processOutput
        (renderPath (pkg_script_exe e ps.id ps.source_workspace))
        [renderPath e.sysroot, "configs"]).2 ++ e.cfgs) := by
  obtain ⟨bt, srcs⟩ := what
  cases hcustom
  constructor
  · simp [buildNoFallback, hscript, run_custom, hinstall, hconfigs]
  · intro t ht
    exact List.mem_append_left _ ht

/-- Concrete instance of the C5 theorem at `envCustomOk`, where the
`configs` phase prints `feature_x feature_y`. -/
theorem custom_script_success_witness :
    buildNoFallback envCustomOk psW
        { build_type := .MaybeCustom, sources := .Everything } =
      { status := .customHandled
          (words (envCustomOk.processOutput
            (renderPath (pkg_script_exe envCustomOk psW.id psW.source_workspace))
            [renderPath envCustomOk.sysroot, "configs"]).2 ++ envCustomOk.cfgs)
        ps := psW
        invs := [{ prog := renderPath
                     (pkg_script_exe envCustomOk psW.id psW.source_workspace)
                   args := [renderPath envCustomOk.sysroot, "install"] },
                 { prog := renderPath
                     (pkg_script_exe envCustomOk psW.id psW.source_workspace)
                   args := [renderPath envCustomOk.sysroot, "configs"] }] } ∧
    (∀ t ∈ words (envCustomOk.processOutput
        (renderPath (pkg_script_exe envCustomOk psW.id psW.source_workspace))
        [renderPath envCustomOk.sysroot, "configs"]).2,
      t ∈ words (envCustomOk.processOutput
        (renderPath (pkg_script_exe envCustomOk psW.id psW.source_workspace))
        [renderPath envCustomOk.sysroot, "configs"]).2 ++ envCustomOk.cfgs) :=
  custom_script_success_no_unit_compilation envCustomOk psW
    { build_type := .MaybeCustom, sources := .Everything }
    (psW.start_dir ++ ["pkg.rs"]) (by decide) rfl (by decide) (by decide)

/-- Claim C6, counterexample: in `envDupCfgs` the script prints `feature_x`,
which is also a statically configured flag; the merged flag sequence is
`[feature_x, feature_x]` — the flag occurs twice, so the merge is not a
duplicate-dropping union as claimed. -/
theorem cfgs_merge_duplicates_counterexample :
    (build 1 envDupCfgs psW
        { build_type := .MaybeCustom, sources := .Everything }).status
      = .customHandled ["feature_x", "feature_x"] ∧
    (["feature_x", "feature_x"].count "feature_x") = 2 := by
  decide

/-- Claim C6 (amended): the extra config flags produced by a build script
are combined with the statically configured flags by plain concatenation —
script flags first, then static flags, relative order preserved — with
duplicates retained: each flag's multiplicity in the merged sequence is the
sum of its multiplicities in the two sources. -/
theorem cfgs_merge_concatenation (e : Env) (ps : PkgSrc)
    (what : WhatToBuild) (sp : FsPath)
    (hscript : package_script_option e ps = some sp)
    (hcustom : what.build_type = .MaybeCustom)
    (hinstall : (e.processStatus
        (renderPath (pkg_script_exe e ps.id ps.source_workspace))
        [renderPath e.sysroot, "install"]).success = true)
    (hconfigs : (e.processOutput
        (renderPath (pkg_script_exe e ps.id ps.source_workspace))
        [renderPath e.sysroot, "configs"]).1.success = true) :
    (buildNoFallback e ps what).status =
      .customHandled
        (words (e.processOutput
          (renderPath (pkg_script_exe e ps.id ps.source_workspace))
          [renderPath e.sysroot, "configs"]).2 ++ e.cfgs) ∧
    (∀ x : String,
      ((words (e.processOutput
          (renderPath (pkg_script_exe e ps.id ps.source_workspace))
          [renderPath e.sysroot, "configs"]).2 ++ e.cfgs).count x) =
        ((words (e.processOutput
          (renderPath (pkg_script_exe e ps.id ps.source_workspace))
          [renderPath e.sysroot, "configs"]).2).count x) + (e.cfgs.count x)) := by
  obtain ⟨bt, srcs⟩ := what
  cases hcustom
  constructor
  · simp [buildNoFallback, hscript, run_custom, hinstall, hconfigs]
  · intro x
    exact List.count_append x _ _

/-- Concrete instance of the amended C6 theorem at `envDupCfgs`. -/
theorem cfgs_merge_concatenation_witness :
    (buildNoFallback envDupCfgs psW
        { build_type := .MaybeCustom, sources := .Everything }).status =
      .customHandled
        (words (envDupCfgs.processOutput
          (renderPath (pkg_script_exe envDupCfgs psW.id psW.source_workspace))
          [renderPath envDupCfgs.sysroot, "configs"]).2 ++ envDupCfgs.cfgs) ∧
    (∀ x : String,
      ((words (envDupCfgs.processOutput
          (renderPath (pkg_script_exe envDupCfgs psW.id psW.source_workspace))
          [renderPath envDupCfgs.sysroot, "configs"]).2 ++ envDupCfgs.cfgs).count x) =
        ((words (envDupCfgs.processOutput
          (renderPath (pkg_script_exe envDupCfgs psW.id psW.source_workspace))
          [renderPath envDupCfgs.sysroot, "configs"]).2).count x) +
          (envDupCfgs.cfgs.count x)) :=
  cfgs_merge_concatenation envDupCfgs psW
    { build_type := .MaybeCustom, sources := .Everything }
    (psW.start_dir ++ ["pkg.rs"]) (by decide) rfl (by decide) (by decide)

/-- Claim C7: `install_no_build` declares each existing built artifact as a
"binary" input with a modification-time-only fingerprint, discovers each
caller-supplied transitive build input as a "file" input with a
content-hash-plus-modification-time fingerprint, and for each artifact
present creates the destination directory tree, copies the artifact,
discovers the destination as a "binary" output with a modification-time-only
fingerprint, and returns exactly the destination path strings of the copies
performed, in order. -/
theorem install_no_build_spec (e : Env) (bw : FsPath) (bi : List FsPath)
    (tw : FsPath) (id : PkgId) (r : InstallRun)
    (h : install_no_build e bw bi tw id = .ok r) :
    (∀ a, e.built_executable id bw = some a →
      CacheCall.declareInput "binary" (renderPath a) (digest_only_date e a)
        ∈ r.calls) ∧
    (∀ a, e.built_library id bw = some a →
      CacheCall.declareInput "binary" (renderPath a) (digest_only_date e a)
        ∈ r.calls) ∧
    (∀ p ∈ bi,
      CacheCall.discoverInput "file" (renderPath p) (digest_file_with_date e p)
        ∈ r.calls) ∧
    (∀ c ∈ r.copies, dirPath c.dst ∈ r.mkdirs ∧
      CacheCall.discoverOutput "binary" (renderPath c.dst)
        (digest_only_date e c.dst) ∈ r.calls) ∧
    (∀ a, e.built_executable id bw = some a →
      CopyOp.mk a (e.target_executable id tw) ∈ r.copies) ∧
    (∀ a, e.built_library id bw = some a → ∃ d, CopyOp.mk a d ∈ r.copies) ∧
    r.outputs = r.copies.map (fun c => renderPath c.dst) := by
  cases hE : e.built_executable id bw with
  | none =>
    cases hL : e.built_library id bw with
    | none =>
      simp [install_no_build, hE, hL] at h
      subst h
      refine ⟨?_, ?_, ?_, ?_, ?_, ?_, ?_⟩
      · exact fun a ha => Option.noConfusion ha
      · exact fun a ha => Option.noConfusion ha
      · intro p hp
        simp
        exact ⟨p, hp, rfl, rfl⟩
      · intro c hc
        simp at hc
      · exact fun a ha => Option.noConfusion ha
      · exact fun a ha => Option.noConfusion ha
      · simp
    | some lib =>
      cases hF : lib.getLast? with
      | none =>
        simp [install_no_build, hE, hL, hF] at h
      | some fname =>
        simp [install_no_build, hE, hL, hF] at h
        subst h
        refine ⟨?_, ?_, ?_, ?_, ?_, ?_, ?_⟩
        · exact fun a ha => Option.noConfusion ha
        · intro a ha
          injection ha with ha
          subst ha
          simp
        · intro p hp
          simp
          exact ⟨p, hp, rfl, rfl⟩
        · intro c hc
          simp at hc
          subst hc
          simp
        · exact fun a ha => Option.noConfusion ha
        · intro a ha
          injection ha with ha
          subst ha
          exact ⟨set_filename (e.target_library id tw) fname, by simp⟩
        · simp
  | some ex =>
    cases hL : e.built_library id bw with
    | none =>
      simp [install_no_build, hE, hL] at h
      subst h
      refine ⟨?_, ?_, ?_, ?_, ?_, ?_, ?_⟩
      · intro a ha
        injection ha with ha
        subst ha
        simp
      · exact fun a ha => Option.noConfusion ha
      · intro p hp
        simp
        exact ⟨p, hp, rfl, rfl⟩
      · intro c hc
        simp at hc
        subst hc
        simp
      · intro a ha
        injection ha with ha
        subst ha
        simp
      · exact fun a ha => Option.noConfusion ha
      · simp
    | some lib =>
      cases hF : lib.getLast? with
      | none =>
        simp [install_no_build, hE, hL, hF] at h
      | some fname =>
        simp [install_no_build, hE, hL, hF] at h
        subst h
        refine ⟨?_, ?_, ?_, ?_, ?_, ?_, ?_⟩
        · intro a ha
          injection ha with ha
          subst ha
          simp
        · intro a ha
          injection ha with ha
          subst ha
          simp
        · intro p hp
          simp
          exact ⟨p, hp, rfl, rfl⟩
        · intro c hc
          simp at hc
          rcases hc with hc | hc <;> subst hc <;> simp
        · intro a ha
          injection ha with ha
          subst ha
          simp
        · intro a ha
          injection ha with ha
          subst ha
          exact ⟨set_filename (e.target_library id tw) fname, by simp⟩
        · simp

/-- Concrete instance of the C7 theorem in `envArtifacts`, where both a
built executable and a built library are present. -/
theorem install_no_build_spec_witness :
    (∀ a, envArtifacts.built_executable idW ["rp"] = some a →
      CacheCall.declareInput "binary" (renderPath a)
        (digest_only_date envArtifacts a) ∈ runArtifacts.calls) ∧
    (∀ a, envArtifacts.built_library idW ["rp"] = some a →
      CacheCall.declareInput "binary" (renderPath a)
        (digest_only_date envArtifacts a) ∈ runArtifacts.calls) ∧
    (∀ p ∈ [psW.start_dir ++ ["main.rs"]],
      CacheCall.discoverInput "file" (renderPath p)
        (digest_file_with_date envArtifacts p) ∈ runArtifacts.calls) ∧
    (∀ c ∈ runArtifacts.copies, dirPath c.dst ∈ runArtifacts.mkdirs ∧
      CacheCall.discoverOutput "binary" (renderPath c.dst)
        (digest_only_date envArtifacts c.dst) ∈ runArtifacts.calls) ∧
    (∀ a, envArtifacts.built_executable idW ["rp"] = some a →
      CopyOp.mk a (envArtifacts.target_executable idW ["rp"])
        ∈ runArtifacts.copies) ∧
    (∀ a, envArtifacts.built_library idW ["rp"] = some a →
      ∃ d, CopyOp.mk a d ∈ runArtifacts.copies) ∧
    runArtifacts.outputs = runArtifacts.copies.map (fun c => renderPath c.dst) :=
  install_no_build_spec envArtifacts ["rp"] [psW.start_dir ++ ["main.rs"]]
    ["rp"] idW runArtifacts rfl

/-- Claim C8: `install` runs the build orchestrator to completion first,
records every unit of the four role lists (libraries, executables, tests,
benchmarks, in that order) as a declared ("file", start_dir/unit-file) input,
invokes `install_no_build` on the same paths, and returns the installed
destination paths paired with exactly those declared inputs. -/
theorem install_spec (fuel : Nat) (e : Env) (ps ps' : PkgSrc)
    (what : WhatToBuild) (cfgs : List String) (invs : List Invocation)
    (r : InstallRun)
    (hb : build fuel e ps what = { status := .compiled cfgs, ps := ps', invs := invs })
    (hi : install_no_build e ps'.build_workspace (build_input_paths ps')
        ps'.destination_workspace ps'.id = .ok r) :
    install fuel e ps what = .done r.outputs (declared_inputs ps') ∧
    declared_inputs ps' = (ps'.libs ++ ps'.mains ++ ps'.tests ++ ps'.benchs).map
      (fun c => ("file", renderPath (ps'.start_dir ++ c.file))) ∧
    build_input_paths ps' = (ps'.libs ++ ps'.mains ++ ps'.tests ++ ps'.benchs).map
      (fun c => ps'.start_dir ++ c.file) := by
  refine ⟨?_, rfl, rfl⟩
  simp [install, hb, hi]

/-- Concrete instance of the C8 theorem in `envArtifacts`: the discovered
executable unit `main.rs` is declared as a "file" input and the two
installed paths are returned. -/
theorem install_spec_witness :
    install 1 envArtifacts psW { build_type := .MaybeCustom, sources := .Everything }
      = .done runArtifacts.outputs (declared_inputs psMains) ∧
    declared_inputs psMains =
      (psMains.libs ++ psMains.mains ++ psMains.tests ++ psMains.benchs).map
        (fun c => ("file", renderPath (psMains.start_dir ++ c.file))) ∧
    build_input_paths psMains =
      (psMains.libs ++ psMains.mains ++ psMains.tests ++ psMains.benchs).map
        (fun c => psMains.start_dir ++ c.file) :=
  install_spec 1 envArtifacts psW psMains
    { build_type := .MaybeCustom, sources := .Everything } [] [] runArtifacts
    (by decide) rfl

end Rustpkg

namespace Rustpkg

/-- Claim C10: in `install_no_build`, the destination library path is
computed exactly when a built library exists (the mapped option is `some`
iff `built_library` is `some`), so the `expect` that unwraps it inside the
memoized body never observes `None`: the result is never the
`targetLibNone` panic — every invocation either succeeds or (only when the
built library path has no filename) hits the unrelated `weird target lib`
panic. -/
theorem target_lib_expect_unreachable (e : Env) (bw : FsPath)
    (bi : List FsPath) (tw : FsPath) (id : PkgId) :
    (Option.map (fun _ => e.target_library id tw)
        (e.built_library id bw)).isSome = (e.built_library id bw).isSome ∧
    ((∃ r, install_no_build e bw bi tw id = .ok r) ∨
      install_no_build e bw bi tw id = .error .weirdTargetLib) := by
  constructor
  · cases e.built_library id bw <;> simp
  · cases hL : e.built_library id bw with
    | none =>
      refine Or.inl ?_
      cases hE : e.built_executable id bw <;>
        · simp only [install_no_build, hE, hL]
          exact ⟨_, rfl⟩
    | some lib =>
      cases hF : lib.getLast? with
      | none =>
        cases hE : e.built_executable id bw <;>
          exact Or.inr (by simp [install_no_build, hE, hL, hF])
      | some fname =>
        refine Or.inl ?_
        cases hE : e.built_executable id bw <;>
          · simp only [install_no_build, hE, hL, hF, Option.map_some]
            exact ⟨_, rfl⟩

end Rustpkg

namespace Rustuv

/-- Claim C9: `wait` returns the exit status recorded by the process's exit
callback — blocking (and returning the status the pending callback records)
when no status is recorded yet, returning the stored status immediately when
the child has already terminated — and the callback's status distinguishes
signal termination from normal exit: a nonzero terminating signal yields
`ExitSignal`, a zero signal yields `ExitStatus` with the child's exit
code. -/
theorem wait_spec (p p0 : UvProcess) (c sg : Int) (ev : Int × Int) :
    (p.exit_status = none → wait p ev = (exit_of ev.1 ev.2, true)) ∧
    (∀ s, p.exit_status = some s → wait p ev = (s, false)) ∧
    wait (on_exit p0 c sg) ev = (exit_of c sg, false) ∧
    (sg ≠ 0 → exit_of c sg = .exitSignal sg) ∧
    (sg = 0 → exit_of c sg = .exitStatus c) := by
  refine ⟨?_, ?_, ?_, ?_, ?_⟩
  · intro hnone
    simp [wait, hnone, on_exit]
  · intro s hs
    simp [wait, hs]
  · simp [wait, on_exit]
  · intro hsg
    simp [exit_of, hsg]
  · intro hsg
    simp [exit_of, hsg]

/-- Concrete instance of the C9 theorem: a not-yet-terminated process whose
child exits with code 7 and no signal, a stored `ExitSignal 9`, and a
callback delivery for signal 9. -/
theorem wait_spec_witness :
    (({ to_wake := none, exit_status := none } : UvProcess).exit_status = none →
      wait { to_wake := none, exit_status := none } (7, 0)
        = (exit_of 7 0, true)) ∧
    (∀ s, ({ to_wake := none, exit_status := none } : UvProcess).exit_status
        = some s →
      wait { to_wake := none, exit_status := none } (7, 0) = (s, false)) ∧
    wait (on_exit { to_wake := some 1, exit_status := none } 0 9) (7, 0)
      = (exit_of 0 9, false) ∧
    ((9 : Int) ≠ 0 → exit_of 0 9 = .exitSignal 9) ∧
    ((9 : Int) = 0 → exit_of 0 9 = .exitStatus 0) :=
  wait_spec { to_wake := none, exit_status := none }
    { to_wake := some 1, exit_status := none } 0 9 (7, 0)

end Rustuv
